import Mathlib

/-!
Verification of the particle-canvas subsystem (source module: particles,
function createParticleSystem and the exported initializer).

Numbers are modelled as rationals.  The one irrational-producing operation,
Math.sqrt, is modelled as an explicit function parameter sqrtFn so that
theorems quantify over any square-root implementation; concrete evaluations
instantiate it with ratSqrt, which is exact on perfect-square rationals
(the only inputs at which concrete claims evaluate it).
-/

namespace Particles

/-- Module-level constant MAX_PARTICLES. -/
def MAX_PARTICLES : ℤ := 60

/-- Module-level constant PARTICLE_SPEED (the base speed). -/
def PARTICLE_SPEED : ℚ := 3 / 10

/-- Module-level constant MOUSE_INFLUENCE_RADIUS. -/
def MOUSE_INFLUENCE_RADIUS : ℚ := 150

/-- Module-level constant MOUSE_REPEL_STRENGTH. -/
def MOUSE_REPEL_STRENGTH : ℚ := 2 / 100

/-- Module-level constant VELOCITY_CENTER. -/
def VELOCITY_CENTER : ℚ := 1 / 2

/-- Module-level constant PIXELS_PER_PARTICLE (density divisor). -/
def PIXELS_PER_PARTICLE : ℚ := 15000

/-- Module-level constant VELOCITY_DAMPING. -/
def VELOCITY_DAMPING : ℚ := 99 / 100

/-- Module-level constant PARTICLE_RADIUS_BASE. -/
def PARTICLE_RADIUS_BASE : ℚ := 1

/-- Module-level constant PARTICLE_RADIUS_RANGE. -/
def PARTICLE_RADIUS_RANGE : ℚ := 2

/-- Module-level constant SPEED_LIMIT_FACTOR. -/
def SPEED_LIMIT_FACTOR : ℚ := 2

/-- Module-level constant MOUSE_OFFSCREEN (pointer-absent sentinel). -/
def MOUSE_OFFSCREEN : ℚ := -1000

/-- A particle: position, velocity and radius, as produced by createParticle
and mutated in place by updateParticles. -/
structure Particle where
  x : ℚ
  y : ℚ
  vx : ℚ
  vy : ℚ
  radius : ℚ
deriving Repr, DecidableEq

/-- Fuel-driven integer square root (floor), structurally recursive so the
kernel can evaluate it on concrete numerals. -/
def isqrtFuel : ℕ → ℕ → ℕ
  | 0, _ => 0
  | fuel + 1, n =>
    if n = 0 then 0
    else
      let r := 2 * isqrtFuel fuel (n / 4)
      if (r + 1) * (r + 1) ≤ n then r + 1 else r

/-- Integer square root used to build a computable rational square root. -/
def natSqrt (n : ℕ) : ℕ := isqrtFuel n n

/-- Exact square root for perfect-square rationals: used to instantiate the
abstract sqrtFn parameter at concrete inputs whose numerator and denominator
are perfect squares, where it agrees with Math.sqrt. -/
def ratSqrt (q : ℚ) : ℚ := (natSqrt q.num.toNat : ℚ) / (natSqrt q.den : ℚ)

/-- Phase 1 of the per-particle body of updateParticles: the pointer
repulsion.  dx, dy, dist and the guarded velocity impulse mirror the source;
sqrtFn stands for Math.sqrt. -/
def applyRepulsion (sqrtFn : ℚ → ℚ) (mouseX mouseY : ℚ) (p : Particle) : Particle :=
  let dx := p.x - mouseX
  let dy := p.y - mouseY
  let dist := sqrtFn (dx * dx + dy * dy)
  if dist < MOUSE_INFLUENCE_RADIUS ∧ dist > 0 then
    { p with vx := p.vx + dx / dist * MOUSE_REPEL_STRENGTH,
             vy := p.vy + dy / dist * MOUSE_REPEL_STRENGTH }
  else p

/-- Phase 2: position integration, p.x += p.vx; p.y += p.vy. -/
def integrate (p : Particle) : Particle :=
  { p with x := p.x + p.vx, y := p.y + p.vy }

/-- Phase 3: hard clamp of each velocity component to
[-speedLimit, speedLimit] with speedLimit = PARTICLE_SPEED * SPEED_LIMIT_FACTOR. -/
def clampVelocity (p : Particle) : Particle :=
  let speedLimit := PARTICLE_SPEED * SPEED_LIMIT_FACTOR
  { p with vx := max (-speedLimit) (min speedLimit p.vx),
           vy := max (-speedLimit) (min speedLimit p.vy) }

/-- Phase 4: damping, p.vx *= VELOCITY_DAMPING; p.vy *= VELOCITY_DAMPING. -/
def dampVelocity (p : Particle) : Particle :=
  { p with vx := p.vx * VELOCITY_DAMPING, vy := p.vy * VELOCITY_DAMPING }

/-- Phase 5: boundary wrapping, the four sequential ifs of the source
(x < 0 sets x to width, then x > width sets x to 0; same for y). -/
def wrapPosition (width height : ℚ) (p : Particle) : Particle :=
  let x1 := if p.x < 0 then width else p.x
  let x2 := if x1 > width then 0 else x1
  let y1 := if p.y < 0 then height else p.y
  let y2 := if y1 > height then 0 else y1
  { p with x := x2, y := y2 }

/-- One Physics Step on a single particle: the body of the forEach in
updateParticles, phases in source order. -/
def updateParticle (sqrtFn : ℚ → ℚ) (width height mouseX mouseY : ℚ)
    (p : Particle) : Particle :=
  wrapPosition width height
    (dampVelocity (clampVelocity (integrate (applyRepulsion sqrtFn mouseX mouseY p))))

/-- updateParticles: one Physics Step over the whole particle array. -/
def updateParticles (sqrtFn : ℚ → ℚ) (width height mouseX mouseY : ℚ)
    (ps : List Particle) : List Particle :=
  ps.map (updateParticle sqrtFn width height mouseX mouseY)

/-- createParticle, with Math.random modelled as a stream rand : ℕ → ℚ of
draws in [0, 1); the particle at index i consumes draws 5i .. 5i+4. -/
def createParticle (rand : ℕ → ℚ) (width height : ℚ) (i : ℕ) : Particle :=
  { x := rand (5 * i) * width,
    y := rand (5 * i + 1) * height,
    vx := (rand (5 * i + 2) - VELOCITY_CENTER) * PARTICLE_SPEED,
    vy := (rand (5 * i + 3) - VELOCITY_CENTER) * PARTICLE_SPEED,
    radius := rand (5 * i + 4) * PARTICLE_RADIUS_RANGE + PARTICLE_RADIUS_BASE }

/-- The count computed by the closure-level initParticles:
Math.min(MAX_PARTICLES, Math.floor(width * height / PIXELS_PER_PARTICLE)). -/
def particleCount (width height : ℚ) : ℤ :=
  min MAX_PARTICLES ⌊width * height / PIXELS_PER_PARTICLE⌋

/-- The closure-level initParticles: particles = Array.from of length count. -/
def initParticles (rand : ℕ → ℚ) (width height : ℚ) : List Particle :=
  (List.range (particleCount width height).toNat).map (createParticle rand width height)

/-! ## Animation-loop driver

The closure variables isVisible and animationId, together with the host
animation-frame queue, form a state machine.  requestAnimationFrame is
modelled as appending a fresh handle to the pending queue and returning it;
cancelAnimationFrame removes a handle from the queue.  The frames field
counts executed physics-update-plus-render passes. -/

/-- Driver state: the closure variables plus the host frame queue. -/
structure Driver where
  isVisible : Bool
  animationId : Option ℕ
  pending : List ℕ
  nextHandle : ℕ
  frames : ℕ
deriving Repr, DecidableEq

/-- Initial closure state: isVisible = true, animationId = null, nothing
scheduled, nothing executed. -/
def Driver.init : Driver :=
  { isVisible := true, animationId := none, pending := [], nextHandle := 1, frames := 0 }

/-- The animate callback: returns early when not visible; otherwise performs
one update-plus-draw pass and schedules itself, storing the new handle in
animationId. -/
def Driver.animate (s : Driver) : Driver :=
  if s.isVisible then
    { s with frames := s.frames + 1,
             animationId := some s.nextHandle,
             pending := s.pending ++ [s.nextHandle],
             nextHandle := s.nextHandle + 1 }
  else s

/-- start(): sets isVisible to true, then calls animate only when
animationId is null. -/
def Driver.start (s : Driver) : Driver :=
  let s1 := { s with isVisible := true }
  if s1.animationId = none then s1.animate else s1

/-- stop(): sets isVisible to false; when animationId is non-null, cancels
that handle and nulls animationId. -/
def Driver.stop (s : Driver) : Driver :=
  let s1 := { s with isVisible := false }
  match s1.animationId with
  | some h => { s1 with pending := s1.pending.erase h, animationId := none }
  | none => s1

/-- The host fires a scheduled frame: the head of the pending queue is
consumed and its callback (always animate) runs.  No-op when nothing is
pending. -/
def Driver.fireFrame (s : Driver) : Driver :=
  match s.pending with
  | [] => s
  | _ :: rest => Driver.animate { s with pending := rest }

/-- External events that drive the loop: a start call, a stop call, or the
host firing the pending frame. -/
inductive Ev where
  | start
  | stop
  | frame
deriving Repr, DecidableEq

/-- Apply one event to the driver state. -/
def applyEv : Ev → Driver → Driver
  | .start, s => s.start
  | .stop, s => s.stop
  | .frame, s => s.fireFrame

/-- Run a sequence of events from a given state. -/
def runFrom (s : Driver) (evs : List Ev) : Driver :=
  evs.foldl (fun t e => applyEv e t) s

/-- Run a sequence of events from the initial state: the reachable states
are exactly the values of run. -/
def run (evs : List Ev) : Driver :=
  runFrom Driver.init evs

/-- The driver invariant: a stopped loop has a null animationId, and the
pending queue is exactly the one cell named by animationId (empty when
null). -/
def DriverInv (s : Driver) : Prop :=
  (s.isVisible = false → s.animationId = none) ∧
  (∀ h, s.animationId = some h → s.pending = [h]) ∧
  (s.animationId = none → s.pending = [])

/-- A fully inert state: not visible, nothing referenced, nothing pending.
This is what stop() leaves behind. -/
def Inert (s : Driver) : Prop :=
  s.isVisible = false ∧ s.animationId = none ∧ s.pending = []

/-! ## Public initializer and construction-time effects

createParticleSystem and the exported initParticles touch the environment:
getContext, the resize write to the canvas, addEventListener (window resize,
container mousemove, container mouseleave, document visibilitychange) and
requestAnimationFrame.  The Effects record counts those calls. -/

/-- Counts of environment calls made during initialization. -/
structure Effects where
  getContextCalls : ℕ
  canvasWrites : ℕ
  listenersAdded : ℕ
  framesScheduled : ℕ
deriving Repr, DecidableEq

/-- No environment calls at all. -/
def Effects.none : Effects :=
  { getContextCalls := 0, canvasWrites := 0, listenersAdded := 0, framesScheduled := 0 }

/-- The environment the initializer observes. -/
structure Env where
  prefersReducedMotion : Bool
  canvasPresent : Bool
  contextAvailable : Bool
  width : ℚ
  height : ℚ
  rand : ℕ → ℚ

/-- The state owned by a successfully constructed particle system. -/
structure SystemState where
  particles : List Particle
  driver : Driver
deriving Repr, DecidableEq

/-- createParticleSystem: calls getContext once; on failure returns null
with nothing else done; on success performs the construction-time resize and
initParticles, attaches the four event listeners, and returns the handle
without starting the loop. -/
def createParticleSystem (env : Env) : Option SystemState × Effects :=
  if env.contextAvailable then
    (some { particles := initParticles env.rand env.width env.height,
            driver := Driver.init },
     { getContextCalls := 1, canvasWrites := 1, listenersAdded := 4, framesScheduled := 0 })
  else
    (Option.none, { getContextCalls := 1, canvasWrites := 0, listenersAdded := 0, framesScheduled := 0 })

/-- The exported initParticles: returns immediately when the reduced-motion
media query matches; returns when the canvas element is absent; otherwise
constructs the system and, when the handle is non-null, calls start() on it.
framesScheduled counts the callbacks left scheduled by construction plus
start. -/
def initParticlesMain (env : Env) : Option SystemState × Effects :=
  if env.prefersReducedMotion then (Option.none, Effects.none)
  else if env.canvasPresent then
    match createParticleSystem env with
    | (Option.none, eff) => (Option.none, eff)
    | (some st, eff) =>
      let started := { st with driver := st.driver.start }
      (some started, { eff with framesScheduled := eff.framesScheduled + started.driver.pending.length })
  else (Option.none, Effects.none)

/-! ## Helper lemmas -/

/-- The velocity x-component after a full step is the clamped pre-step
x-velocity times the damping factor (wrapping and integration leave it
untouched). -/
theorem updateParticle_vx_eq (f : ℚ → ℚ) (w h mx my : ℚ) (p : Particle) :
    (updateParticle f w h mx my p).vx =
      max (-(PARTICLE_SPEED * SPEED_LIMIT_FACTOR))
        (min (PARTICLE_SPEED * SPEED_LIMIT_FACTOR) ((applyRepulsion f mx my p).vx)) *
        VELOCITY_DAMPING := rfl

/-- The velocity y-component after a full step is the clamped pre-step
y-velocity times the damping factor. -/
theorem updateParticle_vy_eq (f : ℚ → ℚ) (w h mx my : ℚ) (p : Particle) :
    (updateParticle f w h mx my p).vy =
      max (-(PARTICLE_SPEED * SPEED_LIMIT_FACTOR))
        (min (PARTICLE_SPEED * SPEED_LIMIT_FACTOR) ((applyRepulsion f mx my p).vy)) *
        VELOCITY_DAMPING := rfl

/-- Clamping to the speed limit and then damping keeps the absolute value
within the speed limit. -/
theorem abs_clamp_damp_le (v : ℚ) :
    |max (-(PARTICLE_SPEED * SPEED_LIMIT_FACTOR))
        (min (PARTICLE_SPEED * SPEED_LIMIT_FACTOR) v) * VELOCITY_DAMPING| ≤
      SPEED_LIMIT_FACTOR * PARTICLE_SPEED := by
  simp only [PARTICLE_SPEED, SPEED_LIMIT_FACTOR, VELOCITY_DAMPING]
  have h1 : -(3 / 10 * 2 : ℚ) ≤ max (-(3 / 10 * 2 : ℚ)) (min (3 / 10 * 2 : ℚ) v) :=
    le_max_left _ _
  have h2 : max (-(3 / 10 * 2 : ℚ)) (min (3 / 10 * 2 : ℚ) v) ≤ (3 / 10 * 2 : ℚ) :=
    max_le (by norm_num) (min_le_left _ _)
  rw [abs_le]
  constructor <;> nlinarith

/-- The repulsion phase never changes the radius. -/
theorem applyRepulsion_radius_eq (f : ℚ → ℚ) (mx my : ℚ) (p : Particle) :
    (applyRepulsion f mx my p).radius = p.radius := by
  simp only [applyRepulsion]
  split <;> rfl

/-- A full step never changes the radius. -/
theorem updateParticle_radius_eq (f : ℚ → ℚ) (w h mx my : ℚ) (p : Particle) :
    (updateParticle f w h mx my p).radius = p.radius := by
  have h5 : ∀ q : Particle, (wrapPosition w h q).radius = q.radius := fun _ => rfl
  have h4 : ∀ q : Particle, (dampVelocity q).radius = q.radius := fun _ => rfl
  have h3 : ∀ q : Particle, (clampVelocity q).radius = q.radius := fun _ => rfl
  have h2 : ∀ q : Particle, (integrate q).radius = q.radius := fun _ => rfl
  unfold updateParticle
  rw [h5, h4, h3, h2, applyRepulsion_radius_eq]

/-- Wrapping keeps the x-coordinate inside the closed interval from 0 to
the width. -/
theorem wrapPosition_x_bounds (w h : ℚ) (q : Particle) (hw : 0 ≤ w) :
    0 ≤ (wrapPosition w h q).x ∧ (wrapPosition w h q).x ≤ w := by
  simp only [wrapPosition]
  split_ifs <;> constructor <;> linarith

/-- Wrapping keeps the y-coordinate inside the closed interval from 0 to
the height. -/
theorem wrapPosition_y_bounds (w h : ℚ) (q : Particle) (hh : 0 ≤ h) :
    0 ≤ (wrapPosition w h q).y ∧ (wrapPosition w h q).y ≤ h := by
  simp only [wrapPosition]
  split_ifs <;> constructor <;> linarith

/-- The driver invariant holds in the initial state. -/
theorem driverInv_init : DriverInv Driver.init := by
  simp [DriverInv, Driver.init]

/-- The driver invariant is preserved by every event. -/
theorem driverInv_applyEv (e : Ev) (s : Driver) (hs : DriverInv s) :
    DriverInv (applyEv e s) := by
  obtain ⟨h1, h2, h3⟩ := hs
  cases s with
  | mk v a pe nh fr =>
    cases e with
    | start =>
      simp only [applyEv, Driver.start, Driver.animate] at *
      cases a with
      | none =>
        have hpe : pe = [] := h3 rfl
        subst hpe
        simp [DriverInv]
      | some k =>
        simp only [reduceIte] at *
        exact ⟨fun hc => by simp at hc, h2, by simp⟩
    | stop =>
      simp only [applyEv, Driver.stop] at *
      cases a with
      | none =>
        exact ⟨fun _ => rfl, by simp, fun _ => h3 rfl⟩
      | some k =>
        have hpe : pe = [k] := h2 k rfl
        subst hpe
        simp [DriverInv]
    | frame =>
      simp only [applyEv, Driver.fireFrame] at *
      cases pe with
      | nil => exact ⟨h1, h2, h3⟩
      | cons hd tl =>
        cases a with
        | none => simp at h3
        | some k =>
          have hv : v = true := by
            cases v with
            | true => rfl
            | false => exact absurd (h1 rfl) (by simp)
          subst hv
          have hk : hd :: tl = [k] := h2 k rfl
          injection hk with hhd htl
          subst hhd
          subst htl
          simp [Driver.animate, DriverInv]

/-- The driver invariant is preserved by any event sequence. -/
theorem driverInv_runFrom (s : Driver) (hs : DriverInv s) (evs : List Ev) :
    DriverInv (runFrom s evs) := by
  induction evs generalizing s with
  | nil => exact hs
  | cons e rest ih => exact ih _ (driverInv_applyEv e s hs)

/-- Every reachable driver state satisfies the invariant. -/
theorem driverInv_run (evs : List Ev) : DriverInv (run evs) :=
  driverInv_runFrom Driver.init driverInv_init evs

/-- start() on a visible state with a live animationId changes nothing. -/
theorem start_noop_of_running (s : Driver) (hvis : s.isVisible = true)
    (hne : s.animationId ≠ Option.none) : s.start = s := by
  cases s with
  | mk v a pe nh fr =>
    simp only at hvis hne
    subst hvis
    simp [Driver.start, hne]

/-- stop() applied to a state satisfying the invariant leaves an inert
state: not visible, no animationId, nothing pending. -/
theorem inert_stop (s : Driver) (hs : DriverInv s) : Inert s.stop := by
  obtain ⟨h1, h2, h3⟩ := hs
  cases s with
  | mk v a pe nh fr =>
    cases a with
    | none =>
      have hpe : pe = [] := h3 rfl
      subst hpe
      simp [Driver.stop, Inert]
    | some k =>
      have hpe : pe = [k] := h2 k rfl
      subst hpe
      simp [Driver.stop, Inert]

/-- An inert state absorbs every event except start. -/
theorem applyEv_inert (s : Driver) (hs : Inert s) (e : Ev) (he : e ≠ Ev.start) :
    applyEv e s = s := by
  obtain ⟨hv, ha, hp⟩ := hs
  cases s with
  | mk v a pe nh fr =>
    simp only at hv ha hp
    subst hv; subst ha; subst hp
    cases e with
    | start => exact absurd rfl he
    | stop => simp [applyEv, Driver.stop]
    | frame => simp [applyEv, Driver.fireFrame]

/-- An inert state is unchanged by any start-free event sequence. -/
theorem runFrom_inert (s : Driver) (hs : Inert s) (evs : List Ev)
    (hno : Ev.start ∉ evs) : runFrom s evs = s := by
  induction evs with
  | nil => rfl
  | cons e rest ih =>
    have he : e ≠ Ev.start := fun hc => hno (hc ▸ List.mem_cons_self e rest)
    have hrest : Ev.start ∉ rest := fun hc => hno (List.mem_cons_of_mem e hc)
    show runFrom (applyEv e s) rest = s
    rw [applyEv_inert s hs e he]
    exact ih hrest

/-! ## Claim theorems -/

/-- C1 (amended): after any Physics Step on a viewport with nonnegative
width and height, the particle position lies in the closed box
0 ≤ x ≤ w and 0 ≤ y ≤ h, and the wrapping phase leaves both velocity
components untouched.  The spec claims the strict bound x < w, but a
particle exiting the left edge re-enters at exactly x = w (and likewise
y = h at the top edge), so only the closed bound holds. -/
theorem position_wrapped_within_closed_bounds (f : ℚ → ℚ) (w h mx my : ℚ) (p : Particle)
    (hw : 0 ≤ w) (hh : 0 ≤ h) :
    (0 ≤ (updateParticle f w h mx my p).x ∧ (updateParticle f w h mx my p).x ≤ w ∧
     0 ≤ (updateParticle f w h mx my p).y ∧ (updateParticle f w h mx my p).y ≤ h) ∧
    (updateParticle f w h mx my p).vx =
      (dampVelocity (clampVelocity (integrate (applyRepulsion f mx my p)))).vx ∧
    (updateParticle f w h mx my p).vy =
      (dampVelocity (clampVelocity (integrate (applyRepulsion f mx my p)))).vy := by
  refine ⟨⟨?_, ?_, ?_, ?_⟩, rfl, rfl⟩
  · exact (wrapPosition_x_bounds w h _ hw).1
  · exact (wrapPosition_x_bounds w h _ hw).2
  · exact (wrapPosition_y_bounds w h _ hh).1
  · exact (wrapPosition_y_bounds w h _ hh).2

/-- Witness for C1 (amended): the closed bounds at a concrete input. -/
theorem position_wrapped_within_closed_bounds_witness :
    (0 : ℚ) ≤ 100 ∧ (0 : ℚ) ≤ 100 ∧
    (0 ≤ (updateParticle ratSqrt 100 100 (-1000) (-1000)
        { x := 0, y := 50, vx := -(1/10), vy := 0, radius := 1 }).x ∧
     (updateParticle ratSqrt 100 100 (-1000) (-1000)
        { x := 0, y := 50, vx := -(1/10), vy := 0, radius := 1 }).x ≤ 100 ∧
     0 ≤ (updateParticle ratSqrt 100 100 (-1000) (-1000)
        { x := 0, y := 50, vx := -(1/10), vy := 0, radius := 1 }).y ∧
     (updateParticle ratSqrt 100 100 (-1000) (-1000)
        { x := 0, y := 50, vx := -(1/10), vy := 0, radius := 1 }).y ≤ 100) :=
  ⟨by norm_num, by norm_num,
   (position_wrapped_within_closed_bounds ratSqrt 100 100 (-1000) (-1000)
     { x := 0, y := 50, vx := -(1/10), vy := 0, radius := 1 }
     (by norm_num) (by norm_num)).1⟩

set_option maxRecDepth 8000 in
/-- C1 counterexample: a particle at x = 0 with vx = -1/10 (pointer at the
off-screen sentinel, so no repulsion) exits the left edge and the wrap code
sets x to exactly the width, 100, refuting the strict claim x < w. -/
theorem wrap_reenters_at_closed_edge :
    ¬ ((updateParticle ratSqrt 100 100 (-1000) (-1000)
        { x := 0, y := 50, vx := -(1/10), vy := 0, radius := 1 }).x < 100) := by
  with_unfolding_all decide

/-- C2: after every Physics Step, each velocity component has absolute
value at most SPEED_LIMIT_FACTOR times PARTICLE_SPEED (the hard clamp runs
after force application, then damping only shrinks the value). -/
theorem velocity_bounded_after_step (f : ℚ → ℚ) (w h mx my : ℚ) (p : Particle) :
    |(updateParticle f w h mx my p).vx| ≤ SPEED_LIMIT_FACTOR * PARTICLE_SPEED ∧
    |(updateParticle f w h mx my p).vy| ≤ SPEED_LIMIT_FACTOR * PARTICLE_SPEED := by
  rw [updateParticle_vx_eq, updateParticle_vy_eq]
  exact ⟨abs_clamp_damp_le _, abs_clamp_damp_le _⟩

/-- C3: the particle count computed by the initializer equals
min(60, floor(w * h / 15000)) and that value is nonnegative, for any
nonnegative viewport dimensions. -/
theorem initParticles_count_formula (rand : ℕ → ℚ) (w h : ℚ) (hw : 0 ≤ w) (hh : 0 ≤ h) :
    ((initParticles rand w h).length : ℤ) = min 60 ⌊w * h / 15000⌋ ∧
    (0 : ℤ) ≤ min 60 ⌊w * h / 15000⌋ := by
  have hfl : (0 : ℤ) ≤ ⌊w * h / 15000⌋ :=
    Int.floor_nonneg.mpr (div_nonneg (mul_nonneg hw hh) (by norm_num))
  have hmin : (0 : ℤ) ≤ min 60 ⌊w * h / 15000⌋ := le_min (by norm_num) hfl
  have hpc : particleCount w h = min 60 ⌊w * h / 15000⌋ := by
    simp [particleCount, MAX_PARTICLES, PIXELS_PER_PARTICLE]
  refine ⟨?_, hmin⟩
  simp only [initParticles, List.length_map, List.length_range, hpc]
  exact Int.toNat_of_nonneg hmin

/-- Witness for C3: an 800 by 600 viewport. -/
theorem initParticles_count_formula_witness :
    (0 : ℚ) ≤ 800 ∧ (0 : ℚ) ≤ 600 ∧
    (((initParticles (fun _ => 0) 800 600).length : ℤ) =
      min 60 ⌊(800 : ℚ) * 600 / 15000⌋ ∧
     (0 : ℤ) ≤ min 60 ⌊(800 : ℚ) * 600 / 15000⌋) :=
  ⟨by norm_num, by norm_num,
   initParticles_count_formula (fun _ => 0) 800 600 (by norm_num) (by norm_num)⟩

/-- C4: every reachable driver state has at most one outstanding scheduled
frame callback, and calling start() while the loop is running (animationId
non-null) changes nothing. -/
theorem start_idempotent_single_callback (evs : List Ev) :
    (run evs).pending.length ≤ 1 ∧
    ((run evs).animationId ≠ Option.none → Driver.start (run evs) = run evs) := by
  obtain ⟨h1, h2, h3⟩ := driverInv_run evs
  constructor
  · cases ha : (run evs).animationId with
    | none => simp [h3 ha]
    | some k => simp [h2 k ha]
  · intro hne
    have hvis : (run evs).isVisible = true := by
      cases hv : (run evs).isVisible with
      | true => rfl
      | false => exact absurd (h1 hv) hne
    exact start_noop_of_running _ hvis hne

/-- Witness for C4: after one start event the loop is running, a second
start is a no-op, and one callback is pending. -/
theorem start_idempotent_single_callback_witness :
    (run [Ev.start]).pending.length ≤ 1 ∧
    Driver.start (run [Ev.start]) = run [Ev.start] :=
  ⟨(start_idempotent_single_callback [Ev.start]).1,
   (start_idempotent_single_callback [Ev.start]).2 (by decide)⟩

/-- C5: after stop() from any reachable state, no further physics-update or
render pass executes under any sequence of stop and frame events, until a
start event occurs: the frames counter stays constant. -/
theorem stop_then_no_frames (evs1 evs2 : List Ev) (hno : Ev.start ∉ evs2) :
    (runFrom (Driver.stop (run evs1)) evs2).frames =
      (Driver.stop (run evs1)).frames := by
  rw [runFrom_inert _ (inert_stop _ (driverInv_run evs1)) _ hno]

/-- Witness for C5: start, stop, then a host-fired frame and another stop
do not advance the frames counter. -/
theorem stop_then_no_frames_witness :
    (runFrom (Driver.stop (run [Ev.start])) [Ev.frame, Ev.stop, Ev.frame]).frames =
      (Driver.stop (run [Ev.start])).frames :=
  stop_then_no_frames [Ev.start] [Ev.frame, Ev.stop, Ev.frame] (by decide)

/-- C6: a particle exactly at the pointer position receives no repulsion
impulse: the guard dist greater than 0 fails, the velocity-modifying branch
that divides by dist is not taken, and the particle is unchanged. -/
theorem at_pointer_no_repulsion (f : ℚ → ℚ) (mx my : ℚ) (p : Particle)
    (hf : f 0 = 0) (hx : p.x = mx) (hy : p.y = my) :
    applyRepulsion f mx my p = p := by
  unfold applyRepulsion
  rw [hx, hy]
  simp [hf]

/-- Witness for C6: a particle exactly under the pointer at (5, 5). -/
theorem at_pointer_no_repulsion_witness :
    ratSqrt 0 = 0 ∧
    applyRepulsion ratSqrt 5 5 { x := 5, y := 5, vx := 1, vy := 1, radius := 1 } =
      { x := 5, y := 5, vx := 1, vy := 1, radius := 1 } :=
  ⟨by with_unfolding_all decide,
   at_pointer_no_repulsion ratSqrt 5 5 _ (by with_unfolding_all decide) rfl rfl⟩

/-- C7: a particle at (100, 100) with zero velocity and the pointer at
(100, 100 + d) with 0 < d < MOUSE_INFLUENCE_RADIUS has strictly negative vy
after one Physics Step, for any square-root function that is exact at d
squared. -/
theorem pointer_repulsion_pushes_vy_negative (f : ℚ → ℚ) (w h r d : ℚ)
    (hd0 : 0 < d) (hdR : d < MOUSE_INFLUENCE_RADIUS) (hf : f (d * d) = d) :
    (updateParticle f w h 100 (100 + d)
      { x := 100, y := 100, vx := 0, vy := 0, radius := r }).vy < 0 := by
  have hvy : (applyRepulsion f 100 (100 + d)
      { x := 100, y := 100, vx := 0, vy := 0, radius := r }).vy = -(1/50) := by
    simp only [applyRepulsion]
    rw [show ((100 : ℚ) - 100) * (100 - 100) + (100 - (100 + d)) * (100 - (100 + d)) = d * d by
      ring]
    rw [hf, if_pos ⟨hdR, hd0⟩]
    field_simp [MOUSE_REPEL_STRENGTH]
    ring
  rw [updateParticle_vy_eq, hvy]
  norm_num [PARTICLE_SPEED, SPEED_LIMIT_FACTOR, VELOCITY_DAMPING]

/-- Witness for C7: pointer 50 pixels below the particle. -/
theorem pointer_repulsion_pushes_vy_negative_witness :
    (0 : ℚ) < 50 ∧ (50 : ℚ) < MOUSE_INFLUENCE_RADIUS ∧ ratSqrt (50 * 50) = 50 ∧
    (updateParticle ratSqrt 800 600 100 (100 + 50)
      { x := 100, y := 100, vx := 0, vy := 0, radius := 1 }).vy < 0 :=
  ⟨by norm_num, by norm_num [MOUSE_INFLUENCE_RADIUS], by with_unfolding_all decide,
   pointer_repulsion_pushes_vy_negative ratSqrt 800 600 1 50 (by norm_num)
     (by norm_num [MOUSE_INFLUENCE_RADIUS]) (by with_unfolding_all decide)⟩

/-- C8: with the reduced-motion preference set, the public initializer
returns a null handle having made no context, canvas, listener or
animation-frame calls. -/
theorem reduced_motion_inert (env : Env) (hrm : env.prefersReducedMotion = true) :
    initParticlesMain env = (Option.none, Effects.none) := by
  simp [initParticlesMain, hrm]

/-- Witness for C8: a concrete environment with reduced motion enabled. -/
theorem reduced_motion_inert_witness :
    (Env.mk true true true 800 600 (fun _ => 0)).prefersReducedMotion = true ∧
    initParticlesMain (Env.mk true true true 800 600 (fun _ => 0)) =
      (Option.none, Effects.none) :=
  ⟨rfl, reduced_motion_inert _ rfl⟩

/-- C9: when 2D-context acquisition fails, createParticleSystem returns a
null handle after exactly the one failed getContext call, with no canvas
write, no listener, no particle state and no scheduled frame; the public
initializer then also yields a null handle with nothing scheduled. -/
theorem context_failure_inert (env : Env) (hctx : env.contextAvailable = false) :
    createParticleSystem env =
      (Option.none,
       { getContextCalls := 1, canvasWrites := 0, listenersAdded := 0,
         framesScheduled := 0 }) ∧
    (initParticlesMain env).1 = Option.none ∧
    (initParticlesMain env).2.framesScheduled = 0 ∧
    (initParticlesMain env).2.listenersAdded = 0 := by
  have hcs : createParticleSystem env =
      (Option.none,
       { getContextCalls := 1, canvasWrites := 0, listenersAdded := 0,
         framesScheduled := 0 }) := by
    simp [createParticleSystem, hctx]
  refine ⟨hcs, ?_⟩
  unfold initParticlesMain
  cases hrm : env.prefersReducedMotion with
  | true => simp [Effects.none]
  | false =>
    cases hcp : env.canvasPresent with
    | true => simp [hcs]
    | false => simp [Effects.none]

/-- Witness for C9: a concrete environment whose canvas is present but
whose 2D context is unavailable. -/
theorem context_failure_inert_witness :
    (Env.mk false true false 800 600 (fun _ => 0)).contextAvailable = false ∧
    (createParticleSystem (Env.mk false true false 800 600 (fun _ => 0)) =
      (Option.none,
       { getContextCalls := 1, canvasWrites := 0, listenersAdded := 0,
         framesScheduled := 0 }) ∧
     (initParticlesMain (Env.mk false true false 800 600 (fun _ => 0))).1 = Option.none ∧
     (initParticlesMain (Env.mk false true false 800 600 (fun _ => 0))).2.framesScheduled = 0 ∧
     (initParticlesMain (Env.mk false true false 800 600 (fun _ => 0))).2.listenersAdded = 0) :=
  ⟨rfl, context_failure_inert _ rfl⟩

/-- C10: one Physics Step over the particle array preserves the number of
particles and the radius of every particle. -/
theorem step_preserves_count_and_radius (f : ℚ → ℚ) (w h mx my : ℚ) (ps : List Particle) :
    (updateParticles f w h mx my ps).map Particle.radius = ps.map Particle.radius ∧
    (updateParticles f w h mx my ps).length = ps.length := by
  constructor
  · simp only [updateParticles, List.map_map]
    exact List.map_congr_left fun p _ => updateParticle_radius_eq f w h mx my p
  · simp [updateParticles]

end Particles
